import Mathlib

/-!
Verification development for the expense-tracker page (src/app/page.tsx).

Modelling conventions, fixed once for the whole file:

* Instants are modelled as unbounded integers counting milliseconds since the
  Unix epoch.  The ECMAScript clamp of the time range to plus or minus 8.64e15
  milliseconds is not modelled: for every input reachable through this page
  (four-digit years in stored `createdAt` strings, month and date inputs) the
  clamped and unclamped semantics produce the same filter output.
* The runtime time zone is taken to be UTC, so the local-time Date constructor
  and the local accessors `getFullYear`, `getMonth`, `getDate` coincide with
  their UTC counterparts.  The spec never mentions time zones.
* JavaScript numbers are modelled as exact integers.  Amounts and parsed date
  components are produced by `parseInt` and are integral; double rounding
  beyond 2^53 is not modelled.
* `NaN`, `-Infinity` and `+Infinity`, which occur only as timestamp values in
  the filter code, are modelled with explicit `Option` layers (documented at
  their use sites).
* The browser built-ins consumed by the page (`Date`, `parseInt`,
  `String.prototype.split`, `JSON`) are modelled from their ECMAScript
  semantics, restricted to the input shapes this page can feed them.
-/

/-! ## Calendar arithmetic (model of the ECMAScript Date built-in)

Days are counted from 1970-01-01 in the proleptic Gregorian calendar, the
calendar ECMAScript mandates.  `daysFromCivil` and `civilFromDays` are the
standard era-based conversions; all divisions are by positive constants, so
`Int./` (Euclidean division) is exactly the floor division ECMAScript uses.
-/

/-- Day number (days since 1970-01-01) of the civil date `(y, m, d)`,
1-indexed month.  `d` may lie outside `[1, last day]`; the result is linear
in `d`, matching the normalising ECMAScript `MakeDay`. -/
def daysFromCivil (y m d : Int) : Int :=
  let ya := if m ≤ 2 then y - 1 else y
  let era := ya / 400
  let yoe := ya % 400
  let mp := if m ≤ 2 then m + 9 else m - 3
  let doy := (153 * mp + 2) / 5 + d - 1
  let doe := yoe * 365 + yoe / 4 - yoe / 100 + doy
  era * 146097 + doe - 719468

/-- Era (400-year block) of a day number, shifted to start at 0000-03-01. -/
def eraOfDay (z : Int) : Int := (z + 719468) / 146097

/-- Day of era (in `[0, 146096]`) of a day number. -/
def doeOfDay (z : Int) : Int := (z + 719468) % 146097

/-- Year of era (in `[0, 399]`, March-based) of a day of era. -/
def yoeOfDoe (doe : Int) : Int :=
  (doe - doe / 1460 + doe / 36524 - doe / 146096) / 365

/-- Day of year (March-based, in `[0, 365]`) of a day of era. -/
def doyOfDoe (doe : Int) : Int :=
  doe - (365 * yoeOfDoe doe + yoeOfDoe doe / 4 - yoeOfDoe doe / 100)

/-- Shifted month index (March = 0) of a March-based day of year. -/
def mpOfDoy (doy : Int) : Int := (5 * doy + 2) / 153

/-- Civil date `(y, m, d)` (1-indexed month) of a day number. -/
def civilFromDays (z : Int) : Int × Int × Int :=
  let era := eraOfDay z
  let doe := doeOfDay z
  let yoe := yoeOfDoe doe
  let y := yoe + era * 400
  let doy := doyOfDoe doe
  let mp := mpOfDoy doy
  let d := doy - (153 * mp + 2) / 5 + 1
  let m := if mp < 10 then mp + 3 else mp - 9
  (if m ≤ 2 then y + 1 else y, m, d)

/-- Gregorian leap-year rule. -/
def isLeapYear (y : Int) : Bool :=
  (y % 4 == 0 && y % 100 != 0) || y % 400 == 0

/-- Number of days in month `m` (1-indexed) of year `y`. -/
def daysInMonth (y m : Int) : Int :=
  if m = 2 then (if isLeapYear y then 29 else 28)
  else if m = 4 ∨ m = 6 ∨ m = 9 ∨ m = 11 then 30
  else 31

/-- Milliseconds since the epoch of the civil date-time
`(y, m, d, h, mi, s, milli)`, 1-indexed month, UTC. -/
def epochMsOfCivil (y m d h mi s milli : Int) : Int :=
  daysFromCivil y m d * 86400000 + h * 3600000 + mi * 60000 + s * 1000 + milli

/-- ECMAScript `MakeFullYear`: integral years 0 to 99 are read as 1900 + year
by the multi-argument Date constructor. -/
def makeFullYear (y : Int) : Int :=
  if 0 ≤ y ∧ y ≤ 99 then 1900 + y else y

/-- ECMAScript `MakeDay` (result in milliseconds): month index `monIdx` is
0-based and is normalised into the year by floor division, day `d` may
overflow or underflow the month. -/
def makeDayMs (yr monIdx d : Int) : Int :=
  let ym := yr * 12 + monIdx
  (daysFromCivil (ym / 12) (ym % 12 + 1) 1 + (d - 1)) * 86400000

/-- Epoch milliseconds produced by the JS constructor
`new Date(y, monIdx, d, h, mi, s, milli)` (local time = UTC here),
including the `MakeFullYear` two-digit-year adjustment. -/
def jsDateMs (y monIdx d h mi s milli : Int) : Int :=
  makeDayMs (makeFullYear y) monIdx d + h * 3600000 + mi * 60000 + s * 1000 + milli

/-- Model of `Date.prototype.getFullYear` (local = UTC). -/
def getFullYear (t : Int) : Int := (civilFromDays (t / 86400000)).1

/-- Model of `Date.prototype.getMonth` (0-based month, local = UTC). -/
def getMonth (t : Int) : Int := (civilFromDays (t / 86400000)).2.1 - 1

/-- Model of `Date.prototype.getDate` (day of month, local = UTC). -/
def getDate (t : Int) : Int := (civilFromDays (t / 86400000)).2.2

/-- The source helper `startOfDay`: rebuild the instant at 00:00:00.000 of the
calendar day of `t` through the JS Date constructor. -/
def startOfDay (t : Int) : Int :=
  jsDateMs (getFullYear t) (getMonth t) (getDate t) 0 0 0 0

/-- The source helper `endOfDay`: the instant at 23:59:59.999 of the calendar
day of `t`, rebuilt through the JS Date constructor. -/
def endOfDay (t : Int) : Int :=
  jsDateMs (getFullYear t) (getMonth t) (getDate t) 23 59 59 999

/-! ### Inversion lemmas for the calendar conversion

The year of era is decomposed as `yoe = 100*e + 4*q + s` with `e` the century
and `q, s` locating the year inside the century, which turns every division
inside `yoeOfDoe` into one with a small, explicitly bounded numerator. -/

theorem yoeOfDoe_spec (e q s b : Int) (he : 0 ≤ e) (he2 : e ≤ 3)
    (hq : 0 ≤ q) (hq2 : q ≤ 24) (hs : 0 ≤ s) (hs2 : s ≤ 3) (hb : 0 ≤ b)
    (h4 : b ≤ 365)
    (h5 : b = 365 →
      ((100*e + 4*q + s + 1) % 4 = 0 ∧ (100*e + 4*q + s + 1) % 100 ≠ 0) ∨
        (100*e + 4*q + s + 1) % 400 = 0) :
    yoeOfDoe (36524*e + 1461*q + 365*s + b) = 100*e + 4*q + s := by
  unfold yoeOfDoe
  rcases lt_or_le (24*e + q + 365*s + b) 1460 with hA | hA
  · have e1 : (36524*e + 1461*q + 365*s + b)/1460 = 25*e + q := by omega
    have e2 : (36524*e + 1461*q + 365*s + b)/36524 = e := by omega
    have e3 : (36524*e + 1461*q + 365*s + b)/146096 = 0 := by omega
    rw [e1, e2, e3]
    omega
  · have e1 : (36524*e + 1461*q + 365*s + b)/1460 = 25*e + q + 1 := by omega
    rcases lt_or_le (1461*q + 365*s + b) 36524 with hB | hB
    · have e2 : (36524*e + 1461*q + 365*s + b)/36524 = e := by omega
      have e3 : (36524*e + 1461*q + 365*s + b)/146096 = 0 := by omega
      rw [e1, e2, e3]
      omega
    · have e2 : (36524*e + 1461*q + 365*s + b)/36524 = e + 1 := by omega
      rcases lt_or_le (36524*e + 1461*q + 365*s + b) 146096 with hj | hj
      · have e3 : (36524*e + 1461*q + 365*s + b)/146096 = 0 := by omega
        rw [e1, e2, e3]
        omega
      · have e3 : (36524*e + 1461*q + 365*s + b)/146096 = 1 := by omega
        rw [e1, e2, e3]
        omega

theorem eraOfDay_spec (era dd : Int) (h1 : 0 ≤ dd) (h2 : dd ≤ 146096) :
    eraOfDay (146097*era + dd - 719468) = era := by
  unfold eraOfDay
  omega

theorem doeOfDay_spec (era dd : Int) (h1 : 0 ≤ dd) (h2 : dd ≤ 146096) :
    doeOfDay (146097*era + dd - 719468) = dd := by
  unfold doeOfDay
  omega

theorem doyOfDoe_spec (e q s b : Int) (he : 0 ≤ e) (he2 : e ≤ 3)
    (hq : 0 ≤ q) (hq2 : q ≤ 24) (hs : 0 ≤ s) (hs2 : s ≤ 3) (hb : 0 ≤ b)
    (h4 : b ≤ 365)
    (h5 : b = 365 →
      ((100*e + 4*q + s + 1) % 4 = 0 ∧ (100*e + 4*q + s + 1) % 100 ≠ 0) ∨
        (100*e + 4*q + s + 1) % 400 = 0) :
    doyOfDoe (36524*e + 1461*q + 365*s + b) = b := by
  unfold doyOfDoe
  rw [yoeOfDoe_spec e q s b he he2 hq hq2 hs hs2 hb h4 h5]
  have e4 : (100*e + 4*q + s) / 4 = 25*e + q := by omega
  have e5 : (100*e + 4*q + s) / 100 = e := by omega
  rw [e4, e5]
  ring


/-- Decomposition of an arbitrary year into era, century and position in the
century, the shape `yoeOfDoe_spec` consumes. -/
theorem yearDecomp (ya : Int) : ∃ E e q s, ya = 400*E + 100*e + 4*q + s ∧
    0 ≤ e ∧ e ≤ 3 ∧ 0 ≤ q ∧ q ≤ 24 ∧ 0 ≤ s ∧ s ≤ 3 :=
  ⟨ya/400, (ya%400)/100, ((ya%400)%100)/4, ((ya%400)%100)%4,
    by omega, by omega, by omega, by omega, by omega, by omega, by omega⟩

/-- Full inversion of `civilFromDays` on a day number given in canonical
era-century form, with the shifted month index `mp` and its day-of-year
offset `K` explicit. -/
theorem civilFromDays_canon (E e q s mp K d : Int)
    (he : 0 ≤ e) (he2 : e ≤ 3) (hq : 0 ≤ q) (hq2 : q ≤ 24)
    (hs : 0 ≤ s) (hs2 : s ≤ 3)
    (hmp : 0 ≤ mp) (hmp2 : mp ≤ 11) (hK : K = (153*mp + 2)/5)
    (hd1 : 1 ≤ d) (hb365 : K + d - 1 ≤ 365)
    (hbNext : K + d - 1 < (153*(mp+1) + 2)/5)
    (h5 : K + d - 1 = 365 →
      ((100*e + 4*q + s + 1) % 4 = 0 ∧ (100*e + 4*q + s + 1) % 100 ≠ 0) ∨
        (100*e + 4*q + s + 1) % 400 = 0) :
    civilFromDays (146097*E + (36524*e + 1461*q + 365*s + (K + d - 1)) - 719468)
      = (if mp < 10 then 100*e + 4*q + s + E*400 else 100*e + 4*q + s + E*400 + 1,
         if mp < 10 then mp + 3 else mp - 9,
         d) := by
  have hb0 : 0 ≤ K + d - 1 := by omega
  simp only [civilFromDays]
  rw [eraOfDay_spec E _ (by omega) (by omega), doeOfDay_spec E _ (by omega) (by omega)]
  rw [yoeOfDoe_spec e q s (K + d - 1) he he2 hq hq2 hs hs2 hb0 hb365 h5]
  rw [doyOfDoe_spec e q s (K + d - 1) he he2 hq hq2 hs hs2 hb0 hb365 h5]
  have hmprec : mpOfDoy (K + d - 1) = mp := by
    unfold mpOfDoy
    interval_cases mp <;> omega
  rw [hmprec]
  simp only [Prod.mk.injEq]
  refine ⟨?_, ?_, ?_⟩
  · split_ifs <;> omega
  · trivial
  · omega

set_option maxHeartbeats 1000000 in
/-- The calendar conversions invert each other on valid civil dates: this
justifies reading year, month and day back off an instant. -/
theorem civil_roundtrip (y m d : Int) (hm1 : 1 ≤ m) (hm2 : m ≤ 12)
    (hd1 : 1 ≤ d) (hd2 : d ≤ daysInMonth y m) :
    civilFromDays (daysFromCivil y m d) = (y, m, d) := by
  simp only [daysInMonth, isLeapYear, Bool.or_eq_true, Bool.and_eq_true,
    beq_iff_eq, bne_iff_ne, ne_eq] at hd2
  obtain ⟨E, e, q, s, hdec, he, he2, hq, hq2, hs, hs2⟩ :=
    yearDecomp (if m ≤ 2 then y - 1 else y)
  interval_cases m <;> norm_num at hdec hd2
  · -- month 1
    have hdfc : daysFromCivil y 1 d =
        146097*E + (36524*e + 1461*q + 365*s + (306 + d - 1)) - 719468 := by
      simp only [daysFromCivil]
      norm_num
      omega
    rw [hdfc, civilFromDays_canon E e q s 10 306 d he he2 hq hq2 hs hs2
      (by omega) (by omega) (by omega) hd1 (by omega) (by omega)
      (by omega)]
    norm_num
    omega
  · -- month 2
    have hd29 : d ≤ 29 := by split at hd2 <;> omega
    have hdfc : daysFromCivil y 2 d =
        146097*E + (36524*e + 1461*q + 365*s + (337 + d - 1)) - 719468 := by
      simp only [daysFromCivil]
      norm_num
      omega
    rw [hdfc, civilFromDays_canon E e q s 11 337 d he he2 hq hq2 hs hs2
      (by omega) (by omega) (by omega) hd1 (by omega) (by omega)
      (by intro hb; split at hd2 <;> omega)]
    norm_num
    omega
  · -- month 3
    have hdfc : daysFromCivil y 3 d =
        146097*E + (36524*e + 1461*q + 365*s + (0 + d - 1)) - 719468 := by
      simp only [daysFromCivil]
      norm_num
      omega
    rw [hdfc, civilFromDays_canon E e q s 0 0 d he he2 hq hq2 hs hs2
      (by omega) (by omega) (by omega) hd1 (by omega) (by omega)
      (by omega)]
    norm_num
    omega
  · -- month 4
    have hdfc : daysFromCivil y 4 d =
        146097*E + (36524*e + 1461*q + 365*s + (31 + d - 1)) - 719468 := by
      simp only [daysFromCivil]
      norm_num
      omega
    rw [hdfc, civilFromDays_canon E e q s 1 31 d he he2 hq hq2 hs hs2
      (by omega) (by omega) (by omega) hd1 (by omega) (by omega)
      (by omega)]
    norm_num
    omega
  · -- month 5
    have hdfc : daysFromCivil y 5 d =
        146097*E + (36524*e + 1461*q + 365*s + (61 + d - 1)) - 719468 := by
      simp only [daysFromCivil]
      norm_num
      omega
    rw [hdfc, civilFromDays_canon E e q s 2 61 d he he2 hq hq2 hs hs2
      (by omega) (by omega) (by omega) hd1 (by omega) (by omega)
      (by omega)]
    norm_num
    omega
  · -- month 6
    have hdfc : daysFromCivil y 6 d =
        146097*E + (36524*e + 1461*q + 365*s + (92 + d - 1)) - 719468 := by
      simp only [daysFromCivil]
      norm_num
      omega
    rw [hdfc, civilFromDays_canon E e q s 3 92 d he he2 hq hq2 hs hs2
      (by omega) (by omega) (by omega) hd1 (by omega) (by omega)
      (by omega)]
    norm_num
    omega
  · -- month 7
    have hdfc : daysFromCivil y 7 d =
        146097*E + (36524*e + 1461*q + 365*s + (122 + d - 1)) - 719468 := by
      simp only [daysFromCivil]
      norm_num
      omega
    rw [hdfc, civilFromDays_canon E e q s 4 122 d he he2 hq hq2 hs hs2
      (by omega) (by omega) (by omega) hd1 (by omega) (by omega)
      (by omega)]
    norm_num
    omega
  · -- month 8
    have hdfc : daysFromCivil y 8 d =
        146097*E + (36524*e + 1461*q + 365*s + (153 + d - 1)) - 719468 := by
      simp only [daysFromCivil]
      norm_num
      omega
    rw [hdfc, civilFromDays_canon E e q s 5 153 d he he2 hq hq2 hs hs2
      (by omega) (by omega) (by omega) hd1 (by omega) (by omega)
      (by omega)]
    norm_num
    omega
  · -- month 9
    have hdfc : daysFromCivil y 9 d =
        146097*E + (36524*e + 1461*q + 365*s + (184 + d - 1)) - 719468 := by
      simp only [daysFromCivil]
      norm_num
      omega
    rw [hdfc, civilFromDays_canon E e q s 6 184 d he he2 hq hq2 hs hs2
      (by omega) (by omega) (by omega) hd1 (by omega) (by omega)
      (by omega)]
    norm_num
    omega
  · -- month 10
    have hdfc : daysFromCivil y 10 d =
        146097*E + (36524*e + 1461*q + 365*s + (214 + d - 1)) - 719468 := by
      simp only [daysFromCivil]
      norm_num
      omega
    rw [hdfc, civilFromDays_canon E e q s 7 214 d he he2 hq hq2 hs hs2
      (by omega) (by omega) (by omega) hd1 (by omega) (by omega)
      (by omega)]
    norm_num
    omega
  · -- month 11
    have hdfc : daysFromCivil y 11 d =
        146097*E + (36524*e + 1461*q + 365*s + (245 + d - 1)) - 719468 := by
      simp only [daysFromCivil]
      norm_num
      omega
    rw [hdfc, civilFromDays_canon E e q s 8 245 d he he2 hq hq2 hs hs2
      (by omega) (by omega) (by omega) hd1 (by omega) (by omega)
      (by omega)]
    norm_num
    omega
  · -- month 12
    have hdfc : daysFromCivil y 12 d =
        146097*E + (36524*e + 1461*q + 365*s + (275 + d - 1)) - 719468 := by
      simp only [daysFromCivil]
      norm_num
      omega
    rw [hdfc, civilFromDays_canon E e q s 9 275 d he he2 hq hq2 hs hs2
      (by omega) (by omega) (by omega) hd1 (by omega) (by omega)
      (by omega)]
    norm_num
    omega

example : daysFromCivil 1970 1 1 = 0 := by decide
example : daysFromCivil 2026 1 31 = 20484 := by decide
example : civilFromDays 20484 = (2026, 1, 31) := by decide
example : civilFromDays 0 = (1970, 1, 1) := by decide
example : civilFromDays (-1) = (1969, 12, 31) := by decide
example : daysFromCivil 2024 2 29 + 1 = daysFromCivil 2024 3 1 := by decide

/-! ## String primitives (models of the JS built-ins used by the page)

`jsParseInt` models `parseInt(s, 10)`: skip leading whitespace, read an
optional sign, then the longest prefix of decimal digits; `none` models the
result `NaN`.  `keepDigits` models `s.replace(/\D/g, "")`. -/

/-- Accumulate the value of the longest decimal-digit prefix. -/
def digitsAcc (acc : Nat) : List Char → Nat
  | [] => acc
  | c :: cs => if c.isDigit then digitsAcc (acc * 10 + (c.toNat - 48)) cs else acc

/-- Value of the longest decimal-digit prefix; `none` when the prefix is
empty. -/
def digitsPrefixVal : List Char → Option Nat
  | [] => none
  | c :: cs => if c.isDigit then some (digitsAcc (c.toNat - 48) cs) else none

/-- Drop the leading whitespace `parseInt` skips. -/
def dropJsSpace : List Char → List Char
  | [] => []
  | c :: cs =>
    if c = ' ' ∨ c = '\t' ∨ c = '\n' ∨ c = '\r' then dropJsSpace cs else c :: cs

/-- Model of `parseInt(s, 10)`; `none` models `NaN`. -/
def jsParseInt (s : String) : Option Int :=
  match dropJsSpace s.toList with
  | '-' :: rest => (digitsPrefixVal rest).map (fun n => -(n : Int))
  | '+' :: rest => (digitsPrefixVal rest).map (fun n => (n : Int))
  | rest => (digitsPrefixVal rest).map (fun n => (n : Int))

/-- Model of `s.replace(/\D/g, "")`: keep only the decimal digits. -/
def keepDigits (s : String) : String :=
  String.mk (s.toList.filter Char.isDigit)

/-- Split a character list at every dash, keeping empty pieces, as
`s.split("-")` does. -/
def splitDashAux (cur : List Char) : List Char → List (List Char)
  | [] => [cur.reverse]
  | c :: cs =>
    if c = '-' then cur.reverse :: splitDashAux [] cs
    else splitDashAux (c :: cur) cs

/-- Model of `s.split("-")`: the empty string yields `[""]`, separators at the
ends yield empty pieces. -/
def jsSplitDash (s : String) : List String :=
  (splitDashAux [] s.toList).map (fun cs => String.mk cs)

/-- The whitespace class trimmed from the name field (the common subset of the
JS `trim` whitespace class; the page only needs whether the result is
empty). -/
def isJsSpace (c : Char) : Bool :=
  c = ' ' ∨ c = '\t' ∨ c = '\n' ∨ c = '\r'

/-- Model of `s.trim()`. -/
def jsTrim (s : String) : String :=
  String.mk (((s.toList.dropWhile isJsSpace).reverse.dropWhile isJsSpace).reverse)

/-! ## Timestamp parsing (model of `new Date(string).getTime()`)

The page stores `createdAt` as `new Date().toISOString()` and feeds the
date-input values `yyyy-mm-dd` to the Date constructor.  The model accepts
exactly the ISO-8601 subset these produce: `YYYY-MM-DD`, optionally followed
by `THH:MM`, `THH:MM:SS` or `THH:MM:SS.sss`, optionally terminated by `Z`
(a date-only string denotes UTC midnight; with the UTC time-zone convention
a designator-free date-time also denotes UTC).  Every other string is
`none`, the model of `NaN`. -/

/-- Read exactly `n` decimal digits, returning their value and the rest. -/
def readNDigits : Nat → Nat → List Char → Option (Nat × List Char)
  | 0, acc, cs => some (acc, cs)
  | _ + 1, _, [] => none
  | n + 1, acc, c :: cs =>
    if c.isDigit then readNDigits n (acc * 10 + (c.toNat - 48)) cs else none

/-- Parse the optional trailing `Z` and the end of the string. -/
def parseZEnd : List Char → Bool
  | [] => true
  | ['Z'] => true
  | _ => false

/-- Parse `SS` or `SS.sss` with the optional `Z`, returning seconds and
milliseconds. -/
def parseSecondsTail (cs : List Char) : Option (Nat × Nat) :=
  match readNDigits 2 0 cs with
  | none => none
  | some (s, rest) =>
    if s ≥ 60 then none
    else
      match rest with
      | '.' :: rest2 =>
        match readNDigits 3 0 rest2 with
        | none => none
        | some (milli, rest3) => if parseZEnd rest3 then some (s, milli) else none
      | _ => if parseZEnd rest then some (s, 0) else none

/-- Parse `HH:MM`, `HH:MM:SS` or `HH:MM:SS.sss` with the optional `Z`,
returning the milliseconds elapsed in the day. -/
def parseTimeTail (cs : List Char) : Option Int :=
  match readNDigits 2 0 cs with
  | none => none
  | some (h, rest) =>
    if h ≥ 24 then none
    else
      match rest with
      | ':' :: rest2 =>
        match readNDigits 2 0 rest2 with
        | none => none
        | some (mi, rest3) =>
          if mi ≥ 60 then none
          else
            match rest3 with
            | ':' :: rest4 =>
              match parseSecondsTail rest4 with
              | none => none
              | some (s, milli) =>
                some ((h : Int) * 3600000 + (mi : Int) * 60000 +
                  (s : Int) * 1000 + (milli : Int))
            | _ =>
              if parseZEnd rest3 then some ((h : Int) * 3600000 + (mi : Int) * 60000)
              else none
      | _ => none

/-- Model of `new Date(s).getTime()` on the ISO subset the page produces:
`some` epoch milliseconds, or `none` for `NaN` (an invalid date). -/
def epochMs (str : String) : Option Int :=
  match readNDigits 4 0 str.toList with
  | none => none
  | some (y, r1) =>
    match r1 with
    | '-' :: r2 =>
      match readNDigits 2 0 r2 with
      | none => none
      | some (m, r3) =>
        if m < 1 ∨ m > 12 then none
        else
          match r3 with
          | '-' :: r4 =>
            match readNDigits 2 0 r4 with
            | none => none
            | some (d, r5) =>
              if d < 1 ∨ (d : Int) > daysInMonth (y : Int) (m : Int) then none
              else
                match r5 with
                | [] => some (epochMsOfCivil (y : Int) (m : Int) (d : Int) 0 0 0 0)
                | 'T' :: r6 =>
                  match parseTimeTail r6 with
                  | none => none
                  | some msOfDay =>
                    some (daysFromCivil (y : Int) (m : Int) (d : Int) * 86400000 + msOfDay)
                | _ => none
          | _ => none
    | _ => none

example : jsParseInt "2026" = some 2026 := by decide
example : jsParseInt "0099" = some 99 := by decide
example : jsParseInt "" = none := by decide
example : jsParseInt "05x" = some 5 := by decide
example : epochMs "1970-01-01" = some 0 := by decide
example : epochMs "1970-01-02T00:00:01.500Z" = some 86401500 := by decide
example : epochMs "2026-01-31T23:59:59.999" = some 1769903999999 := by decide
example : epochMs "garbage" = none := by decide
example : epochMs "2026-02-29" = none := by decide

/-! ## Data model (src/app/page.tsx)

`TxType` models the union `"Chi tiêu" | "Thu nhập"` (expense | income);
`Transaction` models the `Transaction` interface with `createdAt` kept as the
stored ISO string, exactly as in the source. -/

inductive TxType where
  | expense
  | income
deriving DecidableEq, Repr

/-- The string label of a transaction type, as stored and serialised. -/
def TxType.label : TxType → String
  | .expense => "Chi tiêu"
  | .income => "Thu nhập"

structure Transaction where
  id : String
  name : String
  amount : Int
  type : TxType
  createdAt : String
deriving DecidableEq, Repr

/-- Filter mode union `"all" | "range" | "month"`. -/
inductive FilterMode where
  | all
  | range
  | month
deriving DecidableEq, Repr

/-- The date-filter UI state: `filterStart`, `filterEnd` hold `yyyy-mm-dd` or
`""`, `filterMonth` holds `yyyy-mm` or `""`. -/
structure FilterSpec where
  mode : FilterMode
  filterStart : String
  filterEnd : String
  filterMonth : String
deriving DecidableEq, Repr

/-- The instant of a transaction: `new Date(t.createdAt).getTime()`, `none`
modelling `NaN`. -/
def txMs (t : Transaction) : Option Int := epochMs t.createdAt

/-- The JS truthiness test `!y` applied to an element of
`split("-").map(parseInt)` that may be missing: `undefined` (outer `none`),
`NaN` (inner `none`) and `0` are falsy; a nonzero number is truthy. -/
def jsTruthyNum : Option (Option Int) → Option Int
  | some (some v) => if v = 0 then none else some v
  | _ => none

/-- The month-branch predicate `ms >= startMs && ms <= endMs`, where the
transaction instant may be `NaN` (`none`), in which case both comparisons are
false. -/
def msInWindow (startMs endMs : Int) (tms : Option Int) : Bool :=
  match tms with
  | some ms => decide (startMs ≤ ms) && decide (ms ≤ endMs)
  | none => false

/-- A range bound as the code computes it: outer `none` is the absent bound
(`-Infinity` or `Infinity`), `some none` is a `NaN` bound (non-empty input
that failed to parse), `some (some v)` is a finite bound. -/
def rangeLower (filterStart : String) : Option (Option Int) :=
  if filterStart = "" then none else some ((epochMs filterStart).map startOfDay)

/-- The upper range bound, from `filterEnd` through `endOfDay`. -/
def rangeUpper (filterEnd : String) : Option (Option Int) :=
  if filterEnd = "" then none else some ((epochMs filterEnd).map endOfDay)

/-- The range-branch predicate `ms >= startMs && ms <= endMs` with the IEEE
special values spelled out: a `NaN` transaction instant or a `NaN` bound
makes the comparison false; an absent bound makes it true. -/
def rangePred (lower upper : Option (Option Int)) (tms : Option Int) : Bool :=
  match tms with
  | none => false
  | some ms =>
    (match lower with
     | none => true
     | some none => false
     | some (some lo) => decide (lo ≤ ms)) &&
    (match upper with
     | none => true
     | some none => false
     | some (some hi) => decide (ms ≤ hi))

/-- The derived value `filteredTransactions` of the page, a direct transcription
of the `useMemo` body: mode `all` returns the input; mode `month` parses
`filterMonth` with `split("-").map(parseInt)`, falls back to the input when
year or month is falsy, and otherwise keeps transactions between
`new Date(y, m - 1, 1, 0, 0, 0, 0)` and `new Date(y, m, 0, 23, 59, 59, 999)`;
mode `range` keeps transactions between `startOfDay(new Date(filterStart))`
(or `-Infinity`) and `endOfDay(new Date(filterEnd))` (or `Infinity`). -/
def filteredTransactions (ts : List Transaction) (fs : FilterSpec) :
    List Transaction :=
  match fs.mode with
  | .all => ts
  | .month =>
    if fs.filterMonth = "" then ts
    else
      let parts := (jsSplitDash fs.filterMonth).map jsParseInt
      match jsTruthyNum parts[0]?, jsTruthyNum parts[1]? with
      | some y, some m =>
        let startMs := jsDateMs y (m - 1) 1 0 0 0 0
        let endMs := jsDateMs y m 0 23 59 59 999
        ts.filter (fun t => msInWindow startMs endMs (txMs t))
      | _, _ => ts
  | .range =>
    ts.filter (fun t =>
      rangePred (rangeLower fs.filterStart) (rangeUpper fs.filterEnd) (txMs t))

/-- `totalExpense`: sum of amounts over the expense records of the filtered
list, as the `filter` + `reduce` chain computes it. -/
def totalExpense (ts : List Transaction) : Int :=
  (ts.filter (fun t => t.type == TxType.expense)).foldl
    (fun sum t => sum + t.amount) 0

/-- `totalIncome`: sum of amounts over the income records. -/
def totalIncome (ts : List Transaction) : Int :=
  (ts.filter (fun t => t.type == TxType.income)).foldl
    (fun sum t => sum + t.amount) 0

/-- `balance = totalIncome - totalExpense`. -/
def balance (ts : List Transaction) : Int := totalIncome ts - totalExpense ts

/-- `visibleListTransactions`: the secondary type-only list filter. -/
def visibleListTransactions (ts : List Transaction) (listFilter : Option TxType) :
    List Transaction :=
  match listFilter with
  | none => ts
  | some ty => ts.filter (fun t => t.type == ty)

/-- The component state touched by `handleAddTransaction`: the collection and
the three form fields. -/
structure AppState where
  transactions : List Transaction
  name : String
  amount : String
  type : TxType
deriving DecidableEq, Repr

/-- `handleAddTransaction`: strip non-digits from the amount field, parse it,
silently return on empty trimmed name / `NaN` / non-positive amount, and
otherwise prepend the new record and reset the form.  The generated id and
the `toISOString()` timestamp are environmental inputs and are passed as
parameters. -/
def handleAddTransaction (st : AppState) (newId nowISO : String) : AppState :=
  let rawDigits := keepDigits st.amount
  match jsParseInt rawDigits with
  | none => st
  | some numericAmount =>
    if jsTrim st.name = "" ∨ numericAmount ≤ 0 then st
    else
      { st with
        transactions :=
          { id := newId, name := jsTrim st.name, amount := numericAmount,
            type := st.type, createdAt := nowISO } :: st.transactions,
        name := "", amount := "", type := TxType.expense }

/-- `handleDeleteTransaction`: keep the records whose id differs. -/
def handleDeleteTransaction (ts : List Transaction) (tid : String) :
    List Transaction :=
  ts.filter (fun t => t.id != tid)

example :
    filteredTransactions
      [{ id := "a", name := "x", amount := 1, type := .expense,
         createdAt := "2026-01-31T23:59:59.999" },
       { id := "b", name := "y", amount := 2, type := .income,
         createdAt := "2026-02-01T00:00:00.000" }]
      { mode := .month, filterStart := "", filterEnd := "", filterMonth := "2026-01" }
      = [{ id := "a", name := "x", amount := 1, type := .expense,
           createdAt := "2026-01-31T23:59:59.999" }] := by decide

example :
    filteredTransactions
      [{ id := "a", name := "x", amount := 1, type := .expense,
         createdAt := "2026-03-10T00:00:00.000" },
       { id := "b", name := "y", amount := 2, type := .income,
         createdAt := "2026-03-09T23:59:59.999" }]
      { mode := .range, filterStart := "2026-03-10", filterEnd := "", filterMonth := "" }
      = [{ id := "a", name := "x", amount := 1, type := .expense,
           createdAt := "2026-03-10T00:00:00.000" }] := by decide

/-! ## Persistence (model of the localStorage round trip)

`JSON.parse` applied to `JSON.stringify` output is the identity on JSON
values, so the stored blob is modelled as the JSON value itself.  The persist
effect writes `JSON.stringify(transactions)`; hydration reads the blob, keeps
the empty collection when it is missing or not an array (the only check the
source performs is `Array.isArray`), and otherwise takes the parsed records
as the new state.  Reading a typed record back out of a parsed JSON object is
modelled by `decodeTransaction`; an array whose elements do not all carry the
five fields with the right types is not representable in the typed model and
is modelled as rejected. -/

inductive JValue where
  | null
  | jbool (b : Bool)
  | jnum (n : Int)
  | jstr (s : String)
  | jarr (elems : List JValue)
  | jobj (fields : List (String × JValue))

/-- Serialisation of one transaction, field for field. -/
def encodeTransaction (t : Transaction) : JValue :=
  .jobj [("id", .jstr t.id), ("name", .jstr t.name), ("amount", .jnum t.amount),
         ("type", .jstr t.type.label), ("createdAt", .jstr t.createdAt)]

/-- The persisted blob `JSON.stringify(transactions)`: a JSON array. -/
def persistTransactions (ts : List Transaction) : JValue :=
  .jarr (ts.map encodeTransaction)

/-- First field with the given key, as JS property lookup on parsed JSON. -/
def lookupField (fields : List (String × JValue)) (k : String) : Option JValue :=
  (fields.find? (fun p => p.1 == k)).map (fun p => p.2)

/-- Project a JSON string. -/
def asJStr : Option JValue → Option String
  | some (.jstr s) => some s
  | _ => none

/-- Project a JSON number. -/
def asJNum : Option JValue → Option Int
  | some (.jnum n) => some n
  | _ => none

/-- The stored `type` label read back as a `TxType`. -/
def decodeTxType (s : String) : Option TxType :=
  if s = "Chi tiêu" then some TxType.expense
  else if s = "Thu nhập" then some TxType.income
  else none

/-- Read one transaction record out of a parsed JSON object. -/
def decodeTransaction (v : JValue) : Option Transaction :=
  match v with
  | .jobj fields =>
    match asJStr (lookupField fields "id"), asJStr (lookupField fields "name"),
        asJNum (lookupField fields "amount"),
        (asJStr (lookupField fields "type")).bind decodeTxType,
        asJStr (lookupField fields "createdAt") with
    | some i, some n, some a, some ty, some c =>
      some { id := i, name := n, amount := a, type := ty, createdAt := c }
    | _, _, _, _, _ => none
  | _ => none

/-- Hydration from the stored blob: `none` models a missing key or a parse
error, a non-array or undecodable blob leaves the store empty, and an array
of records becomes the state unchecked. -/
def hydrateTransactions (blob : Option JValue) : List Transaction :=
  match blob with
  | some (.jarr elems) =>
    match elems.mapM decodeTransaction with
    | some ts => ts
    | none => []
  | _ => []

/-! ## Statements taken from the wording of the spec

These definitions render the phrases the claims are written in (first and
last instants of months and days, the store invariant) so that the theorems
below can relate the code to them. -/

/-- First instant of the month `(y, m)`: day 1 at 00:00:00.000. -/
def firstInstantOfMonth (y m : Int) : Int := epochMsOfCivil y m 1 0 0 0 0

/-- Last instant of the month `(y, m)`: its last day at 23:59:59.999. -/
def lastInstantOfMonth (y m : Int) : Int :=
  epochMsOfCivil y m (daysInMonth y m) 23 59 59 999

/-- First instant of the calendar day `(y, m, d)`. -/
def firstInstantOfDay (y m d : Int) : Int := epochMsOfCivil y m d 0 0 0 0

/-- Last instant of the calendar day `(y, m, d)`. -/
def lastInstantOfDay (y m d : Int) : Int := epochMsOfCivil y m d 23 59 59 999

/-- A well-formed calendar date, as produced by the date and month inputs:
four-digit year, real month and day. -/
def ValidCivilDate (y m d : Int) : Prop :=
  0 ≤ y ∧ y ≤ 9999 ∧ 1 ≤ m ∧ m ≤ 12 ∧ 1 ≤ d ∧ d ≤ daysInMonth y m

instance (y m d : Int) : Decidable (ValidCivilDate y m d) := by
  unfold ValidCivilDate
  infer_instance

/-- The store invariant claimed by the spec: positive amounts, non-empty
names, pairwise-distinct ids. -/
def storeInvariant (ts : List Transaction) : Prop :=
  (∀ t ∈ ts, 0 < t.amount ∧ t.name ≠ "") ∧ (ts.map (fun t => t.id)).Nodup

instance (ts : List Transaction) : Decidable (storeInvariant ts) := by
  unfold storeInvariant
  infer_instance

/-! ## Bridge lemmas: the windows the code computes, in calendar terms -/

theorem daysFromCivil_linear_d (y m d : Int) :
    daysFromCivil y m d = daysFromCivil y m 1 + (d - 1) := by
  simp only [daysFromCivil]
  split_ifs <;> ring

set_option maxHeartbeats 1000000 in
theorem daysFromCivil_next_month (y m : Int) (hm1 : 1 ≤ m) (hm2 : m ≤ 11) :
    daysFromCivil y (m+1) 1 = daysFromCivil y m (daysInMonth y m) + 1 := by
  simp only [daysInMonth, isLeapYear, Bool.or_eq_true, Bool.and_eq_true,
    beq_iff_eq, bne_iff_ne, ne_eq]
  obtain ⟨E, e, q, s, hdec, he, he2, hq, hq2, hs, hs2⟩ := yearDecomp (y - 1)
  interval_cases m <;> simp only [daysFromCivil] <;> norm_num <;>
    (try split_ifs) <;> omega

theorem daysFromCivil_next_year (y : Int) :
    daysFromCivil (y+1) 1 1 = daysFromCivil y 12 31 + 1 := by
  simp only [daysFromCivil]
  norm_num
  omega

/-- The start `new Date(y, m - 1, 1, 0, 0, 0, 0)` of the month window is the
first instant of month `m` of the (two-digit-adjusted) year. -/
theorem jsDateMs_month_start (y m : Int) (hm1 : 1 ≤ m) (hm2 : m ≤ 12) :
    jsDateMs y (m - 1) 1 0 0 0 0 = firstInstantOfMonth (makeFullYear y) m := by
  simp only [jsDateMs, makeDayMs, firstInstantOfMonth, epochMsOfCivil]
  have h1 : (makeFullYear y * 12 + (m - 1)) / 12 = makeFullYear y := by omega
  have h2 : (makeFullYear y * 12 + (m - 1)) % 12 = m - 1 := by omega
  rw [h1, h2]
  have h3 : m - 1 + 1 = m := by ring
  rw [h3]
  ring

/-- The end `new Date(y, m, 0, 23, 59, 59, 999)` of the month window (day 0
of the next month) is the last instant of month `m` of the adjusted year. -/
theorem jsDateMs_month_end (y m : Int) (hm1 : 1 ≤ m) (hm2 : m ≤ 12) :
    jsDateMs y m 0 23 59 59 999 = lastInstantOfMonth (makeFullYear y) m := by
  simp only [jsDateMs, makeDayMs, lastInstantOfMonth, epochMsOfCivil]
  rcases lt_or_le m 12 with h12 | h12
  · have h1 : (makeFullYear y * 12 + m) / 12 = makeFullYear y := by omega
    have h2 : (makeFullYear y * 12 + m) % 12 = m := by omega
    rw [h1, h2, daysFromCivil_next_month (makeFullYear y) m hm1 (by omega),
      daysFromCivil_linear_d (makeFullYear y) m (daysInMonth (makeFullYear y) m)]
    ring
  · have hm : m = 12 := by omega
    subst hm
    have h1 : (makeFullYear y * 12 + 12) / 12 = makeFullYear y + 1 := by omega
    have h2 : (makeFullYear y * 12 + 12) % 12 = 0 := by omega
    rw [h1, h2]
    have h3 : (0 : Int) + 1 = 1 := by norm_num
    have h4 : daysInMonth (makeFullYear y) 12 = 31 := by
      simp [daysInMonth]
    rw [h3, daysFromCivil_next_year (makeFullYear y), h4,
      daysFromCivil_linear_d (makeFullYear y) 12 31]
    ring

/-- `startOfDay` applied to the UTC midnight of a valid civil date lands on
the first instant of that day, with the two-digit-year adjustment applied by
the Date constructor it calls. -/
theorem startOfDay_civil (y m d : Int) (hm1 : 1 ≤ m) (hm2 : m ≤ 12)
    (hd1 : 1 ≤ d) (hd2 : d ≤ daysInMonth y m) :
    startOfDay (epochMsOfCivil y m d 0 0 0 0) =
      firstInstantOfDay (makeFullYear y) m d := by
  unfold startOfDay getFullYear getMonth getDate
  have ht : epochMsOfCivil y m d 0 0 0 0 / 86400000 = daysFromCivil y m d := by
    unfold epochMsOfCivil
    omega
  rw [ht, civil_roundtrip y m d hm1 hm2 hd1 hd2]
  dsimp only
  simp only [jsDateMs, makeDayMs, firstInstantOfDay, epochMsOfCivil]
  have h1 : (makeFullYear y * 12 + (m - 1)) / 12 = makeFullYear y := by omega
  have h2 : (makeFullYear y * 12 + (m - 1)) % 12 = m - 1 := by omega
  rw [h1, h2]
  rw [daysFromCivil_linear_d (makeFullYear y) m d]
  have h3 : m - 1 + 1 = m := by ring
  rw [h3]

/-- `endOfDay` applied to the UTC midnight of a valid civil date lands on the
last instant of that day, with the two-digit-year adjustment. -/
theorem endOfDay_civil (y m d : Int) (hm1 : 1 ≤ m) (hm2 : m ≤ 12)
    (hd1 : 1 ≤ d) (hd2 : d ≤ daysInMonth y m) :
    endOfDay (epochMsOfCivil y m d 0 0 0 0) =
      lastInstantOfDay (makeFullYear y) m d := by
  unfold endOfDay getFullYear getMonth getDate
  have ht : epochMsOfCivil y m d 0 0 0 0 / 86400000 = daysFromCivil y m d := by
    unfold epochMsOfCivil
    omega
  rw [ht, civil_roundtrip y m d hm1 hm2 hd1 hd2]
  dsimp only
  simp only [jsDateMs, makeDayMs, lastInstantOfDay, epochMsOfCivil]
  have h1 : (makeFullYear y * 12 + (m - 1)) / 12 = makeFullYear y := by omega
  have h2 : (makeFullYear y * 12 + (m - 1)) % 12 = m - 1 := by omega
  rw [h1, h2]
  rw [daysFromCivil_linear_d (makeFullYear y) m d]
  have h3 : m - 1 + 1 = m := by ring
  rw [h3]

/-! ## Shared helper lemmas -/

theorem foldl_amount_sum (l : List Transaction) (a : Int) :
    l.foldl (fun sum t => sum + t.amount) a = a + (l.map (fun t => t.amount)).sum := by
  induction l generalizing a with
  | nil => simp
  | cons t l ih =>
    simp only [List.foldl_cons, List.map_cons, List.sum_cons, ih]
    ring

theorem decodeTransaction_encodeTransaction (t : Transaction) :
    decodeTransaction (encodeTransaction t) = some t := by
  obtain ⟨i, n, a, ty, c⟩ := t
  cases ty <;> rfl

theorem mapM_decode_encode (ts : List Transaction) :
    (ts.map encodeTransaction).mapM decodeTransaction = some ts := by
  induction ts with
  | nil => rfl
  | cons t l ih =>
    rw [List.map_cons, List.mapM_cons, decodeTransaction_encodeTransaction, ih]
    rfl

theorem remove_of_not_mem (ts : List Transaction) (tid : String)
    (h : tid ∉ ts.map (fun t => t.id)) :
    handleDeleteTransaction ts tid = ts := by
  unfold handleDeleteTransaction
  rw [List.filter_eq_self]
  intro t ht
  simp only [bne_iff_ne, ne_eq]
  intro heq
  exact h (heq ▸ List.mem_map_of_mem (fun t => t.id) ht)

theorem remove_length_nodup (ts : List Transaction) (tid : String)
    (h : (ts.map (fun t => t.id)).Nodup) :
    ts.length ≤ (handleDeleteTransaction ts tid).length + 1 := by
  induction ts with
  | nil => simp [handleDeleteTransaction]
  | cons t l ih =>
    simp only [List.map_cons, List.nodup_cons] at h
    unfold handleDeleteTransaction
    rw [List.filter_cons]
    by_cases hid : t.id = tid
    · have hrest : handleDeleteTransaction l tid = l := by
        apply remove_of_not_mem
        rw [← hid]
        exact h.1
      simp only [hid, bne_self_eq_false, if_neg]
      unfold handleDeleteTransaction at hrest
      rw [hrest]
      simp
    · have : (t.id != tid) = true := by simp [hid]
      rw [if_pos this]
      have := ih h.2
      unfold handleDeleteTransaction at this
      simp only [List.length_cons]
      omega

/-! ## Claim theorems -/

/-- C5: for every transaction subset, `totalExpense` is the sum of the
amounts of the expense records, `totalIncome` the sum over the income
records, `balance = totalIncome - totalExpense`, and the empty subset yields
`(0, 0, 0)`. -/
theorem aggregate_totals (ts : List Transaction) :
    totalExpense ts =
      ((ts.filter (fun t => t.type == TxType.expense)).map (fun t => t.amount)).sum
    ∧ totalIncome ts =
      ((ts.filter (fun t => t.type == TxType.income)).map (fun t => t.amount)).sum
    ∧ balance ts = totalIncome ts - totalExpense ts
    ∧ totalExpense [] = 0 ∧ totalIncome [] = 0 ∧ balance [] = 0 := by
  refine ⟨?_, ?_, rfl, rfl, rfl, rfl⟩ <;>
    simp [totalExpense, totalIncome, foldl_amount_sum]

/-- C3: a valid submission (non-empty trimmed name, positive parsed amount)
prepends exactly one new record carrying the trimmed name, the parsed
amount, the selected type, the generated id and the captured timestamp. -/
theorem add_valid_prepends (st : AppState) (newId nowISO : String) (n : Int)
    (hname : jsTrim st.name ≠ "")
    (hamt : jsParseInt (keepDigits st.amount) = some n) (hpos : 0 < n) :
    (handleAddTransaction st newId nowISO).transactions =
      { id := newId, name := jsTrim st.name, amount := n, type := st.type,
        createdAt := nowISO } :: st.transactions
    ∧ (handleAddTransaction st newId nowISO).transactions.length =
      st.transactions.length + 1 := by
  have hcond : ¬(jsTrim st.name = "" ∨ n ≤ 0) := by
    push_neg
    exact ⟨hname, by omega⟩
  simp only [handleAddTransaction, hamt]
  rw [if_neg hcond]
  exact ⟨rfl, rfl⟩

/-- Witness for C3 at the concrete submission `("Coffee", "50000", expense)`. -/
theorem add_valid_prepends_witness :
    (handleAddTransaction
      { transactions := [], name := "Coffee", amount := "50000",
        type := TxType.expense } "id1" "2026-01-05T08:00:00.000Z").transactions =
      [{ id := "id1", name := jsTrim "Coffee", amount := 50000,
         type := TxType.expense, createdAt := "2026-01-05T08:00:00.000Z" }]
    ∧ (handleAddTransaction
      { transactions := [], name := "Coffee", amount := "50000",
        type := TxType.expense } "id1" "2026-01-05T08:00:00.000Z").transactions.length
      = 0 + 1 :=
  add_valid_prepends
    { transactions := [], name := "Coffee", amount := "50000",
      type := TxType.expense } "id1" "2026-01-05T08:00:00.000Z" 50000
    (by decide) (by decide) (by decide)

/-- C4: an invalid submission (empty trimmed name, or unparseable or
non-positive amount) leaves the whole component state, collection and form
fields alike, unchanged; the handler is total, so no exception escapes. -/
theorem add_invalid_noop (st : AppState) (newId nowISO : String)
    (h : jsTrim st.name = "" ∨ jsParseInt (keepDigits st.amount) = none ∨
      (∀ n, jsParseInt (keepDigits st.amount) = some n → n ≤ 0)) :
    handleAddTransaction st newId nowISO = st := by
  rcases hp : jsParseInt (keepDigits st.amount) with _ | n
  · simp only [handleAddTransaction, hp]
  · have hcond : jsTrim st.name = "" ∨ n ≤ 0 := by
      rcases h with h | h | h
      · exact Or.inl h
      · rw [h] at hp
        cases hp
      · exact Or.inr (h n hp)
    simp only [handleAddTransaction, hp]
    rw [if_pos hcond]

/-- Witness for C4 at a whitespace-only name and at a zero amount. -/
theorem add_invalid_noop_witness :
    handleAddTransaction
      { transactions := [], name := " ", amount := "50000",
        type := TxType.expense } "id1" "2026-01-05T08:00:00.000Z" =
      { transactions := [], name := " ", amount := "50000",
        type := TxType.expense }
    ∧ handleAddTransaction
      { transactions := [], name := "Tea", amount := "0",
        type := TxType.income } "id2" "2026-01-05T08:00:00.000Z" =
      { transactions := [], name := "Tea", amount := "0",
        type := TxType.income } :=
  ⟨add_invalid_noop _ "id1" "2026-01-05T08:00:00.000Z" (Or.inl (by decide)),
   add_invalid_noop _ "id2" "2026-01-05T08:00:00.000Z"
     (Or.inr (Or.inr (fun n hz => by cases hz; decide)))⟩

/-- C6 counterexample: on a collection with duplicate ids (reachable, since
hydration does not validate), one `remove` deletes two records, so the length
drops by 2, not by at most 1. -/
theorem remove_duplicate_ids_counterexample :
    handleDeleteTransaction
      [{ id := "a", name := "x", amount := 1, type := TxType.expense,
         createdAt := "c1" },
       { id := "a", name := "y", amount := 2, type := TxType.income,
         createdAt := "c2" }] "a" = []
    ∧ (handleDeleteTransaction
      [{ id := "a", name := "x", amount := 1, type := TxType.expense,
         createdAt := "c1" },
       { id := "a", name := "y", amount := 2, type := TxType.income,
         createdAt := "c2" }] "a").length + 2 =
      ([{ id := "a", name := "x", amount := 1, type := TxType.expense,
          createdAt := "c1" },
        { id := "a", name := "y", amount := 2, type := TxType.income,
          createdAt := "c2" }] : List Transaction).length := by
  exact ⟨rfl, rfl⟩

/-- C6 (amended): `remove(id)` removes every record whose id matches — at
most one when the ids are pairwise distinct — is idempotent, is a no-op when
no id matches, and preserves the relative order of the survivors. -/
theorem remove_spec (ts : List Transaction) (tid : String) :
    handleDeleteTransaction (handleDeleteTransaction ts tid) tid =
      handleDeleteTransaction ts tid
    ∧ List.Sublist (handleDeleteTransaction ts tid) ts
    ∧ ((ts.map (fun t => t.id)).Nodup →
        ts.length ≤ (handleDeleteTransaction ts tid).length + 1)
    ∧ (tid ∉ ts.map (fun t => t.id) → handleDeleteTransaction ts tid = ts)
    ∧ (∀ t, t ∈ handleDeleteTransaction ts tid ↔ t ∈ ts ∧ t.id ≠ tid) := by
  refine ⟨?_, ?_, remove_length_nodup ts tid, remove_of_not_mem ts tid, ?_⟩
  · unfold handleDeleteTransaction
    rw [List.filter_filter]
    simp
  · unfold handleDeleteTransaction
    exact List.filter_sublist ts
  · intro t
    unfold handleDeleteTransaction
    simp [List.mem_filter]

/-- Witness for C6 on a concrete two-element collection with distinct ids. -/
theorem remove_spec_witness :
    ([{ id := "a", name := "x", amount := 1, type := TxType.expense,
        createdAt := "c1" },
      { id := "b", name := "y", amount := 2, type := TxType.income,
        createdAt := "c2" }] : List Transaction).length ≤
      (handleDeleteTransaction
        [{ id := "a", name := "x", amount := 1, type := TxType.expense,
           createdAt := "c1" },
         { id := "b", name := "y", amount := 2, type := TxType.income,
           createdAt := "c2" }] "a").length + 1
    ∧ handleDeleteTransaction
        [{ id := "a", name := "x", amount := 1, type := TxType.expense,
           createdAt := "c1" },
         { id := "b", name := "y", amount := 2, type := TxType.income,
           createdAt := "c2" }] "zz" =
        [{ id := "a", name := "x", amount := 1, type := TxType.expense,
           createdAt := "c1" },
         { id := "b", name := "y", amount := 2, type := TxType.income,
           createdAt := "c2" }] :=
  ⟨(remove_spec _ "a").2.2.1 (by decide),
   (remove_spec _ "zz").2.2.2.1 (by decide)⟩

/-- C9: persisting a collection and hydrating from the same stored blob
reproduces an equal collection, record for record and in order. -/
theorem persist_hydrate_roundtrip (ts : List Transaction) :
    hydrateTransactions (some (persistTransactions ts)) = ts := by
  simp only [hydrateTransactions, persistTransactions]
  rw [mapM_decode_encode]

/-- C8 counterexample: hydration performs no per-record validation (the
source only checks `Array.isArray`), so a stored blob holding a record with
a negative amount, an empty name and a duplicated id becomes the state and
breaks every part of the claimed invariant. -/
theorem hydrate_unvalidated_counterexample :
    hydrateTransactions (some (JValue.jarr
      [JValue.jobj [("id", JValue.jstr "a"), ("name", JValue.jstr ""),
         ("amount", JValue.jnum (-5)), ("type", JValue.jstr "Chi tiêu"),
         ("createdAt", JValue.jstr "x")],
       JValue.jobj [("id", JValue.jstr "a"), ("name", JValue.jstr ""),
         ("amount", JValue.jnum (-5)), ("type", JValue.jstr "Chi tiêu"),
         ("createdAt", JValue.jstr "x")]])) =
      [{ id := "a", name := "", amount := -5, type := TxType.expense,
         createdAt := "x" },
       { id := "a", name := "", amount := -5, type := TxType.expense,
         createdAt := "x" }]
    ∧ ¬ storeInvariant
      [{ id := "a", name := "", amount := -5, type := TxType.expense,
         createdAt := "x" },
       { id := "a", name := "", amount := -5, type := TxType.expense,
         createdAt := "x" }] := by
  exact ⟨rfl, by decide⟩

/-- C8 (amended): the invariant (positive amounts, non-empty names,
pairwise-distinct ids) is established by `add` with a fresh id, preserved by
`remove`, and reproduced by hydration from a persisted well-formed
collection; hydration of an arbitrary blob, however, is unchecked. -/
theorem store_invariant_preserved (st : AppState) (newId nowISO tid : String)
    (ts : List Transaction) :
    (storeInvariant st.transactions →
      newId ∉ st.transactions.map (fun t => t.id) →
      storeInvariant (handleAddTransaction st newId nowISO).transactions)
    ∧ (storeInvariant st.transactions →
        storeInvariant (handleDeleteTransaction st.transactions tid))
    ∧ (storeInvariant ts →
        storeInvariant (hydrateTransactions (some (persistTransactions ts)))) := by
  refine ⟨?_, ?_, ?_⟩
  · intro hinv hfresh
    rcases hp : jsParseInt (keepDigits st.amount) with _ | n
    · simpa only [handleAddTransaction, hp] using hinv
    · by_cases hcond : jsTrim st.name = "" ∨ n ≤ 0
      · simp only [handleAddTransaction, hp, if_pos hcond]
        exact hinv
      · simp only [handleAddTransaction, hp, if_neg hcond]
        push_neg at hcond
        constructor
        · intro t ht
          rcases List.mem_cons.mp ht with rfl | ht
          · exact ⟨hcond.2, hcond.1⟩
          · exact hinv.1 t ht
        · rw [List.map_cons, List.nodup_cons]
          exact ⟨hfresh, hinv.2⟩
  · intro hinv
    constructor
    · intro t ht
      exact hinv.1 t (List.mem_of_mem_filter ht)
    · exact ((List.filter_sublist st.transactions).map
        (fun t => t.id)).nodup hinv.2
  · intro hinv
    simpa only [hydrateTransactions, persistTransactions, mapM_decode_encode]
      using hinv

/-- Witness for C8 on concrete states: a valid add into a one-record store, a
remove from it, and a hydration of its persisted image. -/
theorem store_invariant_preserved_witness :
    storeInvariant (handleAddTransaction
      { transactions :=
          [{ id := "a", name := "x", amount := 1, type := TxType.expense,
             createdAt := "c1" }],
        name := "Tea", amount := "7", type := TxType.income }
      "b" "2026-01-05T08:00:00.000Z").transactions
    ∧ storeInvariant (handleDeleteTransaction
      [{ id := "a", name := "x", amount := 1, type := TxType.expense,
         createdAt := "c1" }] "a")
    ∧ storeInvariant (hydrateTransactions (some (persistTransactions
      [{ id := "a", name := "x", amount := 1, type := TxType.expense,
         createdAt := "c1" }]))) :=
  ⟨(store_invariant_preserved
      { transactions :=
          [{ id := "a", name := "x", amount := 1, type := TxType.expense,
             createdAt := "c1" }],
        name := "Tea", amount := "7", type := TxType.income }
      "b" "2026-01-05T08:00:00.000Z" "a" []).1 (by decide) (by decide),
   (store_invariant_preserved
      { transactions :=
          [{ id := "a", name := "x", amount := 1, type := TxType.expense,
             createdAt := "c1" }],
        name := "Tea", amount := "7", type := TxType.income }
      "b" "2026-01-05T08:00:00.000Z" "a" []).2.1 (by decide),
   (store_invariant_preserved
      { transactions := [], name := "", amount := "", type := TxType.expense }
      "b" "t" "a"
      [{ id := "a", name := "x", amount := 1, type := TxType.expense,
         createdAt := "c1" }]).2.2 (by decide)⟩

/-- The year component of the destructuring
`[y, m] = filterMonth.split("-").map(v => parseInt(v, 10))` with the
truthiness test `!y` applied: `some` exactly when the code proceeds. -/
def monthFilterYear (s : String) : Option Int :=
  jsTruthyNum ((jsSplitDash s).map jsParseInt)[0]?

/-- The month component of the same destructuring, with `!m` applied. -/
def monthFilterMon (s : String) : Option Int :=
  jsTruthyNum ((jsSplitDash s).map jsParseInt)[1]?

/-- C1 (amended): month mode falls back to the unfiltered input when the
year or month component of `filterMonth` is absent, unparseable or zero;
when both are truthy and the month lies in 1..12, the output is exactly the
records whose instant lies in the inclusive window from the first to the
last instant of the month — of the year adjusted by the JS Date constructor,
which reads years 0 to 99 as 1900 + year. -/
theorem month_filter_characterization (ts : List Transaction)
    (fsS fsE s : String) :
    ((monthFilterYear s = none ∨ monthFilterMon s = none) →
      filteredTransactions ts
        { mode := .month, filterStart := fsS, filterEnd := fsE,
          filterMonth := s } = ts)
    ∧ (∀ y m : Int, monthFilterYear s = some y → monthFilterMon s = some m →
        1 ≤ y → 1 ≤ m → m ≤ 12 →
        filteredTransactions ts
          { mode := .month, filterStart := fsS, filterEnd := fsE,
            filterMonth := s } =
          ts.filter (fun t =>
            msInWindow (firstInstantOfMonth (makeFullYear y) m)
              (lastInstantOfMonth (makeFullYear y) m) (txMs t))) := by
  constructor
  · intro h
    by_cases hs : s = ""
    · subst hs
      rfl
    · unfold monthFilterYear monthFilterMon at h
      simp only [filteredTransactions, if_neg hs]
      rcases h with h | h
      · rw [h]
      · rcases hy2 : jsTruthyNum ((jsSplitDash s).map jsParseInt)[0]? with _ | y
        · rfl
        · rw [h]
  · intro y m hy hm hy1 hm1 hm2
    have hs : ¬ s = "" := by
      intro h
      subst h
      rw [(by decide : monthFilterYear "" = none)] at hy
      cases hy
    unfold monthFilterYear at hy
    unfold monthFilterMon at hm
    simp only [filteredTransactions, if_neg hs]
    rw [hy, hm]
    dsimp only
    rw [jsDateMs_month_start y m hm1 hm2, jsDateMs_month_end y m hm1 hm2]

/-- C1 counterexample: for `filterMonth = "0099-05"` (year 99, a valid month
input), the claimed window is May of the year 99, but the code builds the
window through the Date constructor, which turns year 99 into 1999. A record
dated inside May 0099 is claimed in but filtered out. -/
theorem month_filter_two_digit_year_counterexample :
    msInWindow (firstInstantOfMonth 99 5) (lastInstantOfMonth 99 5)
      (txMs { id := "a", name := "x", amount := 1, type := TxType.expense,
              createdAt := "0099-05-15T12:00:00.000Z" }) = true
    ∧ filteredTransactions
      [{ id := "a", name := "x", amount := 1, type := TxType.expense,
         createdAt := "0099-05-15T12:00:00.000Z" }]
      { mode := .month, filterStart := "", filterEnd := "",
        filterMonth := "0099-05" } = [] := by
  exact ⟨by decide, by decide⟩

/-- Witness for C1 at the boundary example of the spec and at an unparseable
month string. -/
theorem month_filter_characterization_witness :
    filteredTransactions
      [{ id := "a", name := "x", amount := 1, type := TxType.expense,
         createdAt := "2026-01-31T23:59:59.999" },
       { id := "b", name := "y", amount := 2, type := TxType.income,
         createdAt := "2026-02-01T00:00:00.000" }]
      { mode := .month, filterStart := "", filterEnd := "",
        filterMonth := "2026-01" } =
      [{ id := "a", name := "x", amount := 1, type := TxType.expense,
         createdAt := "2026-01-31T23:59:59.999" }]
    ∧ filteredTransactions
      [{ id := "a", name := "x", amount := 1, type := TxType.expense,
         createdAt := "2026-01-31T23:59:59.999" },
       { id := "b", name := "y", amount := 2, type := TxType.income,
         createdAt := "2026-02-01T00:00:00.000" }]
      { mode := .month, filterStart := "", filterEnd := "",
        filterMonth := "2026-02" } =
      [{ id := "b", name := "y", amount := 2, type := TxType.income,
         createdAt := "2026-02-01T00:00:00.000" }]
    ∧ filteredTransactions
      [{ id := "a", name := "x", amount := 1, type := TxType.expense,
         createdAt := "2026-01-31T23:59:59.999" }]
      { mode := .month, filterStart := "", filterEnd := "",
        filterMonth := "not-a-month" } =
      [{ id := "a", name := "x", amount := 1, type := TxType.expense,
         createdAt := "2026-01-31T23:59:59.999" }] :=
  ⟨((month_filter_characterization _ "" "" "2026-01").2 2026 1 (by decide)
      (by decide) (by decide) (by decide) (by decide)).trans (by decide),
   ((month_filter_characterization _ "" "" "2026-02").2 2026 2 (by decide)
      (by decide) (by decide) (by decide) (by decide)).trans (by decide),
   (month_filter_characterization _ "" "" "not-a-month").1 (Or.inl (by decide))⟩

/-- C7 counterexample: in range mode with both bounds absent the code still
runs the predicate `NaN >= -Infinity && NaN <= Infinity`, which is false, so
a record whose `createdAt` does not parse is dropped and the output is not
the unfiltered input. -/
theorem range_no_bounds_counterexample :
    filteredTransactions
      [{ id := "g", name := "x", amount := 1, type := TxType.expense,
         createdAt := "not-a-date" }]
      { mode := .range, filterStart := "", filterEnd := "", filterMonth := "" }
      = []
    ∧ ([{ id := "g", name := "x", amount := 1, type := TxType.expense,
          createdAt := "not-a-date" }] : List Transaction) ≠ [] := by
  exact ⟨by decide, by decide⟩

/-- C7 (amended): range mode with both bounds absent keeps exactly the
records whose `createdAt` parses to a timestamp; when every record parses —
in particular for every collection the app itself wrote — the output equals
the unfiltered input. -/
theorem range_no_bounds_keeps_parseable (ts : List Transaction) (mstr : String) :
    filteredTransactions ts
      { mode := .range, filterStart := "", filterEnd := "", filterMonth := mstr }
      = ts.filter (fun t => (txMs t).isSome)
    ∧ ((∀ t ∈ ts, (txMs t).isSome = true) →
        filteredTransactions ts
          { mode := .range, filterStart := "", filterEnd := "",
            filterMonth := mstr } = ts) := by
  have hpred : ∀ t : Transaction,
      rangePred (rangeLower "") (rangeUpper "") (txMs t) = (txMs t).isSome := by
    intro t
    cases htx : txMs t <;> rfl
  constructor
  · simp only [filteredTransactions]
    exact List.filter_congr (fun t _ => hpred t)
  · intro hall
    simp only [filteredTransactions]
    rw [List.filter_eq_self.mpr]
    intro t ht
    rw [hpred t]
    exact hall t ht

/-- Witness for C7 on a record whose timestamp parses. -/
theorem range_no_bounds_witness :
    filteredTransactions
      [{ id := "a", name := "x", amount := 1, type := TxType.expense,
         createdAt := "2026-01-05T08:00:00.000Z" }]
      { mode := .range, filterStart := "", filterEnd := "", filterMonth := "" }
      = [{ id := "a", name := "x", amount := 1, type := TxType.expense,
           createdAt := "2026-01-05T08:00:00.000Z" }] :=
  (range_no_bounds_keeps_parseable _ "").2 (by decide)

/-- C10: a record whose `createdAt` does not parse (`NaN` timestamp) is
excluded by the month filter whenever the month spec is truthy, and by the
range filter for every pair of bounds, absent ones included; mode `all`
retains it. -/
theorem nan_created_at_excluded (ts : List Transaction) (t : Transaction)
    (hnan : epochMs t.createdAt = none) :
    (∀ fsS fsE s : String, ∀ y m : Int,
      monthFilterYear s = some y → monthFilterMon s = some m →
      t ∉ filteredTransactions ts
        { mode := .month, filterStart := fsS, filterEnd := fsE,
          filterMonth := s })
    ∧ (∀ fsS fsE fsM : String,
        t ∉ filteredTransactions ts
          { mode := .range, filterStart := fsS, filterEnd := fsE,
            filterMonth := fsM })
    ∧ (∀ fsS fsE fsM : String, t ∈ ts →
        t ∈ filteredTransactions ts
          { mode := .all, filterStart := fsS, filterEnd := fsE,
            filterMonth := fsM }) := by
  have htx : txMs t = none := hnan
  refine ⟨?_, ?_, ?_⟩
  · intro fsS fsE s y m hy hm hmem
    have hs : ¬ s = "" := by
      intro h
      subst h
      rw [(by decide : monthFilterYear "" = none)] at hy
      cases hy
    unfold monthFilterYear at hy
    unfold monthFilterMon at hm
    simp only [filteredTransactions, if_neg hs] at hmem
    rw [hy, hm] at hmem
    rw [List.mem_filter] at hmem
    rw [htx] at hmem
    cases hmem.2
  · intro fsS fsE fsM hmem
    simp only [filteredTransactions] at hmem
    rw [List.mem_filter] at hmem
    have : rangePred (rangeLower fsS) (rangeUpper fsE) (txMs t) = false := by
      rw [htx]
      rfl
    rw [this] at hmem
    cases hmem.2
  · intro fsS fsE fsM hmem
    exact hmem

/-- Witness for C10 at a concrete garbage timestamp. -/
theorem nan_created_at_excluded_witness :
    ({ id := "g", name := "x", amount := 1, type := TxType.expense,
       createdAt := "soon" } : Transaction) ∉
      filteredTransactions
        [{ id := "g", name := "x", amount := 1, type := TxType.expense,
           createdAt := "soon" }]
        { mode := .month, filterStart := "", filterEnd := "",
          filterMonth := "2026-01" }
    ∧ ({ id := "g", name := "x", amount := 1, type := TxType.expense,
         createdAt := "soon" } : Transaction) ∉
      filteredTransactions
        [{ id := "g", name := "x", amount := 1, type := TxType.expense,
           createdAt := "soon" }]
        { mode := .range, filterStart := "", filterEnd := "", filterMonth := "" }
    ∧ ({ id := "g", name := "x", amount := 1, type := TxType.expense,
         createdAt := "soon" } : Transaction) ∈
      filteredTransactions
        [{ id := "g", name := "x", amount := 1, type := TxType.expense,
           createdAt := "soon" }]
        { mode := .all, filterStart := "", filterEnd := "", filterMonth := "" } :=
  ⟨(nan_created_at_excluded _ _ (by decide)).1 "" "" "2026-01" 2026 1
      (by decide) (by decide),
   (nan_created_at_excluded _ _ (by decide)).2.1 "" "" "",
   (nan_created_at_excluded _ _ (by decide)).2.2 "" "" "" (by decide)⟩

/-- C2 (amended): the effective lower bound is the first instant of the
start day and the effective upper bound the last instant of the end day —
of the day whose year the JS Date constructor first maps from 0..99 to
1900 + year — with absent inputs giving unbounded ends, and membership in
the output is exactly the conjunction of the two bound comparisons on the
parsed `createdAt` instant. -/
theorem range_filter_characterization (ts : List Transaction)
    (sstr estr mstr : String) :
    (∀ y m d : Int, ValidCivilDate y m d → sstr ≠ "" →
      epochMs sstr = some (firstInstantOfDay y m d) →
      rangeLower sstr = some (some (firstInstantOfDay (makeFullYear y) m d)))
    ∧ (∀ y m d : Int, ValidCivilDate y m d → estr ≠ "" →
        epochMs estr = some (firstInstantOfDay y m d) →
        rangeUpper estr = some (some (lastInstantOfDay (makeFullYear y) m d)))
    ∧ rangeLower "" = none
    ∧ rangeUpper "" = none
    ∧ (∀ t, t ∈ filteredTransactions ts
        { mode := .range, filterStart := sstr, filterEnd := estr,
          filterMonth := mstr } ↔
        t ∈ ts ∧ rangePred (rangeLower sstr) (rangeUpper estr) (txMs t) = true) := by
  refine ⟨?_, ?_, rfl, rfl, ?_⟩
  · intro y m d hv hne hp
    obtain ⟨_, _, hm1, hm2, hd1, hd2⟩ := hv
    unfold rangeLower
    rw [if_neg hne, hp]
    exact congrArg some (congrArg some (startOfDay_civil y m d hm1 hm2 hd1 hd2))
  · intro y m d hv hne hp
    obtain ⟨_, _, hm1, hm2, hd1, hd2⟩ := hv
    unfold rangeUpper
    rw [if_neg hne, hp]
    exact congrArg some (congrArg some (endOfDay_civil y m d hm1 hm2 hd1 hd2))
  · intro t
    simp only [filteredTransactions]
    rw [List.mem_filter]

/-- C2 counterexample: with `filterStart = "0099-03-10"` the claimed lower
bound is the first instant of 0099-03-10, which admits a record at noon of
that day, but the code passes year 99 through the Date constructor and
bounds from 1999-03-10, so the record is filtered out. -/
theorem range_filter_two_digit_year_counterexample :
    rangePred (some (some (firstInstantOfDay 99 3 10))) none
      (txMs { id := "a", name := "x", amount := 1, type := TxType.expense,
              createdAt := "0099-03-10T12:00:00.000Z" }) = true
    ∧ filteredTransactions
      [{ id := "a", name := "x", amount := 1, type := TxType.expense,
         createdAt := "0099-03-10T12:00:00.000Z" }]
      { mode := .range, filterStart := "0099-03-10", filterEnd := "",
        filterMonth := "" } = [] := by
  exact ⟨by decide, by decide⟩

/-- Witness for C2 at the boundary example of the spec: start 2026-03-10,
no end; midnight of the 10th is kept, the last instant of the 9th is not. -/
theorem range_filter_characterization_witness :
    rangeLower "2026-03-10" =
      some (some (firstInstantOfDay (makeFullYear 2026) 3 10))
    ∧ ({ id := "a", name := "x", amount := 1, type := TxType.expense,
         createdAt := "2026-03-10T00:00:00.000" } : Transaction) ∈
      filteredTransactions
        [{ id := "a", name := "x", amount := 1, type := TxType.expense,
           createdAt := "2026-03-10T00:00:00.000" },
         { id := "b", name := "y", amount := 2, type := TxType.income,
           createdAt := "2026-03-09T23:59:59.999" }]
        { mode := .range, filterStart := "2026-03-10", filterEnd := "",
          filterMonth := "" }
    ∧ ({ id := "b", name := "y", amount := 2, type := TxType.income,
         createdAt := "2026-03-09T23:59:59.999" } : Transaction) ∉
      filteredTransactions
        [{ id := "a", name := "x", amount := 1, type := TxType.expense,
           createdAt := "2026-03-10T00:00:00.000" },
         { id := "b", name := "y", amount := 2, type := TxType.income,
           createdAt := "2026-03-09T23:59:59.999" }]
        { mode := .range, filterStart := "2026-03-10", filterEnd := "",
          filterMonth := "" } :=
  ⟨(range_filter_characterization [] "2026-03-10" "" "").1 2026 3 10
      (by decide) (by decide) (by decide),
   ((range_filter_characterization _ "2026-03-10" "" "").2.2.2.2 _).mpr
      (by decide),
   fun hmem =>
     absurd (((range_filter_characterization _ "2026-03-10" "" "").2.2.2.2 _).mp
       hmem).2 (by decide)⟩
